import Mathlib

/-
Verification of the session routing layer of mcp-nextjs-app.

Shallow embedding of:
  src/src/app/api/mcp/route.ts  (GET stream-open, POST message routing, the
                                 onClose teardown callback)
  src/unnamed/part_001          (lib/redis.ts: Redis client initialization)

The registry activeTransports is a JS object mapping session ids to
SSEServerTransport values; the Redis store is modelled as an association list
from key to remaining TTL (the stored value is always the constant marker
string). Fallible external calls (redis.exists / expire / del / set, the
inbound handler receiveMessage and the fallback handlePostMessage of the
transport) are modelled by explicit failure flags and Except-valued handler
functions.
-/

namespace Mcp

/-- Response bodies produced by route.ts. Constructor errorMsg m stands for
the JSON object whose single field error holds m; success stands for the
object whose field success is true; raw s is the mock-response body passed
through verbatim on the handlePostMessage fallback path. -/
inductive Body where
  | errorMsg (msg : String)
  | success
  | raw (s : String)
deriving DecidableEq, Repr

/-- An HTTP response as produced by NextResponse.json: status code and body. -/
structure HttpResponse where
  status : Nat
  body : Body
deriving DecidableEq, Repr

/-- SSEServerTransport as observed by route.ts. Field sessionId is the id the
SDK generated at construction. Field receiveMessage? is some f when the
duck-typed probe on the transport finds a receiveMessage function; f msg
resolves with the synchronous acknowledgment payload of the application
handler, or rejects. handlePostMessage msg models the fallback call against
the mock response object: it resolves with the (status, body) pair the mock
recorded (initialized to (200, empty)), or rejects. -/
structure Transport where
  sessionId : String
  receiveMessage? : Option (String → Except String String)
  handlePostMessage : String → Except String (Nat × String)

/-- The process-local activeTransports object: session id to transport. -/
abbrev Registry := List (String × Transport)

/-- The Redis store restricted to what route.ts uses: key to remaining TTL in
seconds (the stored value is always the liveness marker). -/
abbrev Store := List (String × Nat)

/-- Failure behavior of the two Redis calls on the POST path: whether
redis.exists throws, and whether the fire-and-forget redis.expire rejects. -/
structure StoreBehavior where
  existsFails : Bool
  expireFails : Bool
deriving DecidableEq, Repr

/-- Reading activeTransports at a session id. -/
def regLookup (reg : Registry) (id : String) : Option Transport :=
  (reg.find? (fun p => p.1 = id)).map (fun p => p.2)

/-- The JS statement that deletes the binding for id from activeTransports. -/
def regRemove (reg : Registry) (id : String) : Registry :=
  reg.filter (fun p => p.1 ≠ id)

/-- The JS assignment that stores a transport under id in activeTransports:
insert-or-replace, with no duplicate check (route.ts line 53). -/
def regInsert (reg : Registry) (id : String) (t : Transport) : Registry :=
  (id, t) :: regRemove reg id

/-- Reading a key and its remaining TTL from the store. -/
def storeLookup (s : Store) (k : String) : Option Nat :=
  (s.find? (fun p => p.1 = k)).map (fun p => p.2)

/-- redis.exists: whether the key is present, when the call does not throw. -/
def storeExists (s : Store) (k : String) : Bool :=
  (storeLookup s k).isSome

/-- redis.set with the EX option: write the key with a fresh TTL. -/
def storeSet (s : Store) (k : String) (ttl : Nat) : Store :=
  (k, ttl) :: s.filter (fun p => p.1 ≠ k)

/-- redis.expire: resets the TTL when the key exists, no-op otherwise. -/
def storeExpire (s : Store) (k : String) (ttl : Nat) : Store :=
  if storeExists s k then storeSet s k ttl else s

/-- redis.del: remove the key. -/
def storeDel (s : Store) (k : String) : Store :=
  s.filter (fun p => p.1 ≠ k)

/-- Key layout used throughout route.ts. -/
def sessionKey (id : String) : String :=
  "mcp_session:" ++ id

/-- route.ts line 11: the session TTL in seconds. -/
def SESSION_EXPIRATION_SECONDS : Nat := 3600

/-- route.ts line 98. -/
def missingSessionIdResponse : HttpResponse :=
  ⟨400, .errorMsg "Missing sessionId"⟩

/-- route.ts line 106. -/
def sessionExpiredResponse : HttpResponse :=
  ⟨400, .errorMsg "Invalid or expired session ID"⟩

/-- route.ts line 112. -/
def internalCheckErrorResponse : HttpResponse :=
  ⟨500, .errorMsg "Internal server error checking session"⟩

/-- route.ts line 120. -/
def transportNotFoundResponse : HttpResponse :=
  ⟨400, .errorMsg "Transport not found for session ID. Please reconnect."⟩

/-- route.ts line 175. -/
def processFailedResponse : HttpResponse :=
  ⟨500, .errorMsg "Failed to process message"⟩

/-- Outcome of one POST call: the HTTP response, the registry and store states
after the call, and whether the payload reached the inbound handler of the
transport. -/
structure PostResult where
  response : HttpResponse
  registry : Registry
  store : Store
  forwarded : Bool

/-- The POST handler of route.ts (lines 92-177). Argument sessionId? is the
value of searchParams.get, msg is the request body text. JS truthiness: both
a missing and an empty sessionId take the Missing-sessionId branch. The try
block around redis.exists returns 500 when that call throws; the redis.expire
refresh is fire-and-forget (a rejection is caught and logged, reflected here
by leaving the store unchanged). The registry is read but never written. -/
def POST (sessionId? : Option String) (msg : String)
    (reg : Registry) (store : Store) (beh : StoreBehavior) : PostResult :=
  match sessionId? with
  | none => ⟨missingSessionIdResponse, reg, store, false⟩
  | some sessionId =>
    if sessionId = "" then
      ⟨missingSessionIdResponse, reg, store, false⟩
    else if beh.existsFails then
      ⟨internalCheckErrorResponse, reg, store, false⟩
    else if !(storeExists store (sessionKey sessionId)) then
      ⟨sessionExpiredResponse, reg, store, false⟩
    else
      let store' :=
        if beh.expireFails then store
        else storeExpire store (sessionKey sessionId) SESSION_EXPIRATION_SECONDS
      match regLookup reg sessionId with
      | none => ⟨transportNotFoundResponse, reg, store', false⟩
      | some transport =>
        match transport.receiveMessage? with
        | some recv =>
          match recv msg with
          | .ok _ack => ⟨⟨200, .success⟩, reg, store', true⟩
          | .error _ => ⟨processFailedResponse, reg, store', true⟩
        | none =>
          match transport.handlePostMessage msg with
          | .ok (st, body) =>
            ⟨⟨st, if body = "" then .success else .raw body⟩, reg, store', true⟩
          | .error _ => ⟨processFailedResponse, reg, store', true⟩

/-- Observable effects of the onClose teardown callback, in program order. -/
inductive TeardownEffect where
  | registryRemove (id : String)
  | storeDel (key : String)
deriving DecidableEq, Repr

/-- State after teardown plus the trace of attempted effects in order. -/
structure TeardownResult where
  registry : Registry
  store : Store
  effects : List TeardownEffect

/-- The onClose callback installed at stream-open (route.ts lines 41-48):
first the JS delete on activeTransports, then redis.del on the session key,
whose rejection is caught and logged (delFails models that rejection). Both
effects are always attempted, in that order. -/
def onClose (id : String) (reg : Registry) (store : Store) (delFails : Bool) :
    TeardownResult :=
  let reg' := regRemove reg id
  let store' := if delFails then store else storeDel store (sessionKey id)
  ⟨reg', store', [.registryRemove id, .storeDel (sessionKey id)]⟩

/-- State after the stream-open path. -/
structure OpenResult where
  registry : Registry
  store : Store

/-- The stream-open path of the GET start callback (route.ts lines 20-66):
the transport is stored in activeTransports, the liveness key is written to
Redis (fire-and-forget, setFails models its rejection), and mcpServer.connect
is started; if connect rejects, transport.close() runs, which fires the
onClose teardown. -/
def streamOpen (reg : Registry) (store : Store) (t : Transport)
    (setFails connectFails delFails : Bool) : OpenResult :=
  let reg1 := regInsert reg t.sessionId t
  let store1 :=
    if setFails then store
    else storeSet store (sessionKey t.sessionId) SESSION_EXPIRATION_SECONDS
  if connectFails then
    let r := onClose t.sessionId reg1 store1 delFails
    ⟨r.registry, r.store⟩
  else
    ⟨reg1, store1⟩

/-- Character-list model of String.startsWith as used by lib/redis.ts:
charsLead p s holds when p is an initial segment of s. -/
def charsLead : List Char → List Char → Bool
  | [], _ => true
  | _ :: _, [] => false
  | a :: as, b :: bs => a = b && charsLead as bs

/-- Character-list model of the JS String.includes test: charsOccur sub s
holds when sub occurs contiguously somewhere in s. -/
def charsOccur (sub : List Char) : List Char → Bool
  | [] => charsLead sub []
  | c :: cs => charsLead sub (c :: cs) || charsOccur sub cs

/-- String.startsWith of lib/redis.ts line 13. -/
def strStartsWith (s p : String) : Bool :=
  charsLead p.data s.data

/-- The JS includes test of lib/redis.ts line 13. -/
def strContains (s sub : String) : Bool :=
  charsOccur sub.data s.data

/-- lib/redis.ts lines 12-20: TLS options are set when the URL starts with
the rediss scheme or contains tls=true anywhere in the string. -/
def tlsEnabled (url : String) : Bool :=
  strStartsWith url "rediss://" || strContains url "tls=true"

/-- The configuration derived at module load: the URL and the TLS toggle. -/
structure RedisConfig where
  url : String
  tls : Bool
deriving DecidableEq, Repr

/-- lib/redis.ts lines 3-13: reading REDIS_URL at module load. JS truthiness:
an unset or empty REDIS_URL throws before any client is constructed. -/
def initRedis : Option String → Except String RedisConfig
  | none => .error "REDIS_URL environment variable is not set."
  | some url =>
    if url = "" then .error "REDIS_URL environment variable is not set."
    else .ok ⟨url, tlsEnabled url⟩

/-- The scheme of a URL: the characters before the first colon. Used only to
state what an inference of TLS from the endpoint scheme alone would mean. -/
def urlScheme (s : String) : String :=
  ⟨s.data.takeWhile (fun c => c ≠ ':')⟩

/-- Example transport whose inbound handler acknowledges with a pong payload. -/
def tPing : Transport := ⟨"S1", some (fun _ => .ok "pong"), fun _ => .ok (200, "")⟩

/-- Example transport identical to tPing except for the acknowledgment. -/
def tPing2 : Transport := ⟨"S1", some (fun _ => .ok "zzz"), fun _ => .ok (200, "")⟩

/-- Example transport whose inbound handler rejects. -/
def tBoom : Transport := ⟨"S1", some (fun _ => .error "boom"), fun _ => .ok (200, "")⟩

/-- Example transport without a receiveMessage function. -/
def tPlainA : Transport := ⟨"s1", none, fun _ => .ok (200, "")⟩

/-- Example transport with a receiveMessage function, distinguishable from
tPlainA by that field alone. -/
def tPlainB : Transport := ⟨"s1", some (fun m => .ok m), fun _ => .ok (200, "")⟩

/-- Writing a key always makes it the most recent entry, so a lookup finds
the fresh TTL. -/
theorem storeLookup_storeSet (s : Store) (k : String) (ttl : Nat) :
    storeLookup (storeSet s k ttl) k = some ttl := by
  simp [storeLookup, storeSet, List.find?]

/-- The POST handler returns the registry it was given in every branch. -/
theorem POST_registry_eq (sid? : Option String) (msg : String) (reg : Registry)
    (store : Store) (beh : StoreBehavior) : (POST sid? msg reg store beh).registry = reg := by
  cases sid? with
  | none => rfl
  | some sid =>
    unfold POST
    by_cases hs : sid = ""
    · simp [hs]
    · cases hex : beh.existsFails with
      | true => simp [hs, hex]
      | false =>
        cases he : storeExists store (sessionKey sid) with
        | false => simp [hs, hex, he]
        | true =>
          cases hr : regLookup reg sid with
          | none => simp [hs, hex, he, hr]
          | some t =>
            cases hrm : t.receiveMessage? with
            | some f =>
              cases hfm : f msg with
              | ok a => simp [hs, hex, he, hr, hrm, hfm]
              | error e => simp [hs, hex, he, hr, hrm, hfm]
            | none =>
              cases hpm : t.handlePostMessage msg with
              | ok p => simp [hs, hex, he, hr, hrm, hpm]
              | error e => simp [hs, hex, he, hr, hrm, hpm]

/-- The response of the POST handler does not depend on whether the
fire-and-forget redis.expire refresh succeeds or rejects. -/
theorem POST_response_expire_irrelevant (sid? : Option String) (msg : String)
    (reg : Registry) (store : Store) (ef e1 e2 : Bool) :
    (POST sid? msg reg store ⟨ef, e1⟩).response = (POST sid? msg reg store ⟨ef, e2⟩).response := by
  cases sid? with
  | none => rfl
  | some sid =>
    unfold POST
    by_cases hs : sid = ""
    · simp [hs]
    · cases ef with
      | true => simp [hs]
      | false =>
        cases he : storeExists store (sessionKey sid) with
        | false => simp [hs, he]
        | true =>
          cases hr : regLookup reg sid with
          | none => simp [hs, he, hr]
          | some t =>
            cases hrm : t.receiveMessage? with
            | some f =>
              cases hfm : f msg with
              | ok a => simp [hs, he, hr, hrm, hfm]
              | error e => simp [hs, he, hr, hrm, hfm]
            | none =>
              cases hpm : t.handlePostMessage msg with
              | ok p => simp [hs, he, hr, hrm, hpm]
              | error e => simp [hs, he, hr, hrm, hpm]

/-- Claim C1: for every nonempty session id whose key is present in the store
while the local registry has no binding for it, POST returns the
transport-not-found response, never forwards the payload, and that response
is distinguishable from the expired-session response. -/
theorem C1_transport_unreachable (sid msg : String) (reg : Registry) (store : Store)
    (beh : StoreBehavior) (hsid : sid ≠ "")
    (hex : beh.existsFails = false)
    (hstore : storeExists store (sessionKey sid) = true)
    (hreg : regLookup reg sid = none) :
    (POST (some sid) msg reg store beh).response = transportNotFoundResponse
    ∧ (POST (some sid) msg reg store beh).forwarded = false
    ∧ transportNotFoundResponse ≠ sessionExpiredResponse := by
  refine ⟨?_, ?_, by decide⟩ <;> simp [POST, hsid, hex, hstore, hreg]

/-- Witness for C1: session S2 present in the store, absent from the registry. -/
theorem C1_witness :
    (POST (some "S2") "m" ([] : Registry) [("mcp_session:S2", 3600)] ⟨false, false⟩).response
      = transportNotFoundResponse
    ∧ (POST (some "S2") "m" ([] : Registry) [("mcp_session:S2", 3600)] ⟨false, false⟩).forwarded
      = false
    ∧ transportNotFoundResponse ≠ sessionExpiredResponse := by
  have h := C1_transport_unreachable "S2" "m" [] [("mcp_session:S2", 3600)] ⟨false, false⟩
    (by decide) rfl rfl rfl
  exact ⟨h.1, h.2.1, h.2.2⟩

/-- Claim C2: for every nonempty session id whose key is absent from the
store (the existence check succeeding), POST returns the 400
invalid-or-expired response, whatever the registry holds. -/
theorem C2_session_expired (sid msg : String) (reg : Registry) (store : Store)
    (beh : StoreBehavior) (hsid : sid ≠ "")
    (hex : beh.existsFails = false)
    (hstore : storeExists store (sessionKey sid) = false) :
    (POST (some sid) msg reg store beh).response = sessionExpiredResponse := by
  simp [POST, hsid, hex, hstore]

/-- Witness for C2: the id is bound in the local registry yet absent from the
store, and the call still reports the session as expired. -/
theorem C2_witness :
    (POST (some "S3") "m" [("S3", tPing)] ([] : Store) ⟨false, false⟩).response
      = sessionExpiredResponse :=
  C2_session_expired "S3" "m" [("S3", tPing)] [] ⟨false, false⟩ (by decide) rfl rfl

/-- Claim C3: when the existence check against the store throws, POST returns
the 500 internal-error response, does not forward the payload, and leaves
both the store and the registry untouched. -/
theorem C3_store_error_fail_closed (sid msg : String) (reg : Registry) (store : Store)
    (beh : StoreBehavior) (hsid : sid ≠ "") (hex : beh.existsFails = true) :
    (POST (some sid) msg reg store beh).response = internalCheckErrorResponse
    ∧ internalCheckErrorResponse.status = 500
    ∧ (POST (some sid) msg reg store beh).forwarded = false
    ∧ (POST (some sid) msg reg store beh).store = store
    ∧ (POST (some sid) msg reg store beh).registry = reg := by
  refine ⟨?_, rfl, ?_, ?_, ?_⟩ <;> simp [POST, hsid, hex]

/-- Witness for C3: a concrete call under a throwing existence check. -/
theorem C3_witness :
    (POST (some "S1") "m" [("S1", tPing)] [("mcp_session:S1", 5)] ⟨true, false⟩).response
      = internalCheckErrorResponse :=
  (C3_store_error_fail_closed "S1" "m" [("S1", tPing)] [("mcp_session:S1", 5)] ⟨true, false⟩
    (by decide) rfl).1

/-- Counterexample to C4 as stated: the inbound handler of tPing produces the
synchronous acknowledgment pong, yet the call response carries the bare
success marker rather than that payload, and the response is identical for a
transport whose handler acknowledges with a different payload. -/
theorem C4_counterexample :
    (tPing.receiveMessage?.map (fun f => f "ping")) = some (Except.ok "pong")
    ∧ (POST (some "S1") "ping" [("S1", tPing)] [("mcp_session:S1", 3600)] ⟨false, false⟩).response
        = ⟨200, Body.success⟩
    ∧ Body.success ≠ Body.raw "pong"
    ∧ (POST (some "S1") "ping" [("S1", tPing2)] [("mcp_session:S1", 3600)] ⟨false, false⟩).response
        = (POST (some "S1") "ping" [("S1", tPing)] [("mcp_session:S1", 3600)] ⟨false, false⟩).response :=
  ⟨rfl, rfl, by decide, rfl⟩

/-- Claim C4 as amended: on the receiveMessage path a successful call always
answers 200 with the bare success marker, discarding any synchronous
acknowledgment of the handler; only the fallback handlePostMessage path
returns the mock-recorded status and body, with the bare success marker
when that body is empty. -/
theorem C4_success_paths (sid msg : String) (reg : Registry) (store : Store) (t : Transport)
    (hsid : sid ≠ "")
    (hstore : storeExists store (sessionKey sid) = true)
    (hreg : regLookup reg sid = some t) :
    (∀ (f : String → Except String String) (ack : String),
      t.receiveMessage? = some f → f msg = .ok ack →
      (POST (some sid) msg reg store ⟨false, false⟩).response = ⟨200, Body.success⟩)
    ∧ (∀ (st : Nat) (body : String),
      t.receiveMessage? = none → t.handlePostMessage msg = .ok (st, body) →
      (POST (some sid) msg reg store ⟨false, false⟩).response
        = ⟨st, if body = "" then Body.success else Body.raw body⟩) := by
  constructor
  · intro f ack hf hok
    simp [POST, hsid, hstore, hreg, hf, hok]
  · intro st body hn hpm
    simp [POST, hsid, hstore, hreg, hn, hpm]

/-- Witness for the amended C4: the scenario call on session S1 answers 200
with the success marker. -/
theorem C4_witness :
    (POST (some "S1") "ping" [("S1", tPing)] [("mcp_session:S1", 3600)] ⟨false, false⟩).response
      = ⟨200, Body.success⟩ :=
  (C4_success_paths "S1" "ping" [("S1", tPing)] [("mcp_session:S1", 3600)] tPing
    (by decide) rfl rfl).1 (fun _ => .ok "pong") "pong" rfl rfl

/-- Claim C5: a successful call leaves the session key with the full
configured TTL of 3600 seconds, and the refresh is fire-and-forget: for all
calls the response is the same whether the refresh rejects or succeeds. -/
theorem C5_refresh (sid msg : String) (reg : Registry) (store : Store)
    (t : Transport) (f : String → Except String String) (ack : String)
    (hsid : sid ≠ "")
    (hstore : storeExists store (sessionKey sid) = true)
    (hreg : regLookup reg sid = some t)
    (hf : t.receiveMessage? = some f)
    (hok : f msg = .ok ack) :
    storeLookup (POST (some sid) msg reg store ⟨false, false⟩).store (sessionKey sid)
      = some SESSION_EXPIRATION_SECONDS
    ∧ ∀ (sid2 : Option String) (msg2 : String) (reg2 : Registry) (store2 : Store) (ef : Bool),
        (POST sid2 msg2 reg2 store2 ⟨ef, true⟩).response
          = (POST sid2 msg2 reg2 store2 ⟨ef, false⟩).response := by
  constructor
  · have hst : (POST (some sid) msg reg store ⟨false, false⟩).store
        = storeExpire store (sessionKey sid) SESSION_EXPIRATION_SECONDS := by
      simp [POST, hsid, hstore, hreg, hf, hok]
    rw [hst, storeExpire, if_pos hstore, storeLookup_storeSet]
  · intro sid2 msg2 reg2 store2 ef
    exact POST_response_expire_irrelevant sid2 msg2 reg2 store2 ef true false

/-- Witness for C5: a session whose TTL had decayed to 5 seconds holds the
full 3600 again after a successful call. -/
theorem C5_witness :
    storeLookup (POST (some "S1") "ping" [("S1", tPing)] [("mcp_session:S1", 5)] ⟨false, false⟩).store
      (sessionKey "S1") = some SESSION_EXPIRATION_SECONDS :=
  (C5_refresh "S1" "ping" [("S1", tPing)] [("mcp_session:S1", 5)] tPing
    (fun _ => .ok "pong") "pong" (by decide) rfl rfl rfl rfl).1

/-- Counterexample to C6 as stated: a call whose handler rejects does return
the 500 failure response, but the store record is not left unchanged — its
TTL was 5 before the call and 3600 after, because the refresh step precedes
forwarding. -/
theorem C6_counterexample :
    (POST (some "S1") "m" [("S1", tBoom)] [("mcp_session:S1", 5)] ⟨false, false⟩).response
      = processFailedResponse
    ∧ storeLookup [("mcp_session:S1", 5)] (sessionKey "S1") = some 5
    ∧ storeLookup (POST (some "S1") "m" [("S1", tBoom)] [("mcp_session:S1", 5)] ⟨false, false⟩).store
        (sessionKey "S1") = some 3600
    ∧ (5 : Nat) ≠ 3600 :=
  ⟨rfl, rfl, rfl, by decide⟩

/-- Claim C6 as amended: when the inbound handler rejects, POST returns the
500 failure response and the session is not torn down — the registry binding
is unchanged and the store record is still present (not deleted), its TTL
having been refreshed by the step that precedes forwarding. -/
theorem C6_handler_failure_no_teardown (sid msg : String) (reg : Registry) (store : Store)
    (t : Transport) (f : String → Except String String) (e : String)
    (hsid : sid ≠ "")
    (hstore : storeExists store (sessionKey sid) = true)
    (hreg : regLookup reg sid = some t)
    (hf : t.receiveMessage? = some f)
    (herr : f msg = .error e) :
    (POST (some sid) msg reg store ⟨false, false⟩).response = processFailedResponse
    ∧ (POST (some sid) msg reg store ⟨false, false⟩).registry = reg
    ∧ storeExists (POST (some sid) msg reg store ⟨false, false⟩).store (sessionKey sid) = true := by
  refine ⟨?_, POST_registry_eq _ _ _ _ _, ?_⟩
  · simp [POST, hsid, hstore, hreg, hf, herr]
  · have hst : (POST (some sid) msg reg store ⟨false, false⟩).store
        = storeExpire store (sessionKey sid) SESSION_EXPIRATION_SECONDS := by
      simp [POST, hsid, hstore, hreg, hf, herr]
    rw [hst, storeExpire, if_pos hstore, storeExists, storeLookup_storeSet]
    rfl

/-- Witness for the amended C6: a concrete handler failure returns the 500
failure response. -/
theorem C6_witness :
    (POST (some "S1") "m" [("S1", tBoom)] [("mcp_session:S1", 5)] ⟨false, false⟩).response
      = processFailedResponse :=
  (C6_handler_failure_no_teardown "S1" "m" [("S1", tBoom)] [("mcp_session:S1", 5)] tBoom
    (fun _ => .error "boom") "boom" (by decide) rfl rfl rfl rfl).1

/-- Counterexample to C7 as stated: the id s1 is already bound (to a
transport without a receiveMessage function), registering a transport with
one over it returns normally and the observable binding has been silently
replaced — no duplicate error exists anywhere in the code. -/
theorem C7_counterexample :
    (regLookup [("s1", tPlainA)] "s1").map (fun t => t.receiveMessage?.isSome) = some false
    ∧ (regLookup (regInsert [("s1", tPlainA)] "s1" tPlainB) "s1").map
        (fun t => t.receiveMessage?.isSome) = some true :=
  ⟨rfl, rfl⟩

/-- Claim C7 as amended: the registration of route.ts line 53 stores the
binding unconditionally — after it, the lookup yields the new transport
whatever was bound before; there is no duplicate check and no failure. -/
theorem C7_register_replaces (reg : Registry) (id : String) (t : Transport) :
    regLookup (regInsert reg id t) id = some t := by
  simp [regLookup, regInsert, List.find?]

/-- Claim C8: teardown attempts its two effects in order — registry removal
first, then the store delete — the registry removal happens whatever the
store delete does, a rejected store delete leaves the store as it was, and
removing an id that is not bound leaves the registry unchanged. -/
theorem C8_teardown_order (id : String) (reg : Registry) (store : Store) (delFails : Bool) :
    (onClose id reg store delFails).effects
      = [TeardownEffect.registryRemove id, TeardownEffect.storeDel (sessionKey id)]
    ∧ (onClose id reg store delFails).registry = regRemove reg id
    ∧ (onClose id reg store delFails).store
      = (if delFails then store else storeDel store (sessionKey id))
    ∧ (regLookup reg id = none → regRemove reg id = reg) := by
  refine ⟨rfl, rfl, rfl, ?_⟩
  intro h
  have hfind : reg.find? (fun p => p.1 = id) = none := Option.map_eq_none'.mp h
  rw [List.find?_eq_none] at hfind
  rw [regRemove, List.filter_eq_self]
  intro a ha
  have := hfind a ha
  simpa using this

/-- Witness for C8: removing an id from the empty registry is a no-op. -/
theorem C8_witness :
    regRemove ([] : Registry) "gone" = ([] : Registry) :=
  (C8_teardown_order "gone" [] [] false).2.2.2 rfl

/-- Counterexample to C9 as stated: two URLs with the same scheme on which
the TLS toggle differs, so the toggle is not inferred from the endpoint
scheme alone. -/
theorem C9_counterexample :
    urlScheme "redis://h" = urlScheme "redis://h?tls=true"
    ∧ tlsEnabled "redis://h" = false
    ∧ tlsEnabled "redis://h?tls=true" = true :=
  ⟨rfl, rfl, rfl⟩

/-- Claim C9 as amended: an unset (or, by JS truthiness, empty) REDIS_URL is
a fatal startup error; for any other URL, initialization succeeds and the
TLS toggle is on exactly when the URL starts with the rediss scheme or
contains the substring tls=true anywhere. -/
theorem C9_startup (u : String) (hu : u ≠ "") :
    initRedis none = .error "REDIS_URL environment variable is not set."
    ∧ initRedis (some "") = .error "REDIS_URL environment variable is not set."
    ∧ initRedis (some u)
      = .ok ⟨u, strStartsWith u "rediss://" || strContains u "tls=true"⟩ := by
  refine ⟨rfl, rfl, ?_⟩
  simp [initRedis, hu, tlsEnabled]

/-- Witness for the amended C9: a concrete rediss URL initializes with the
TLS toggle computed by the source formula. -/
theorem C9_witness :
    initRedis (some "rediss://h")
      = .ok ⟨"rediss://h",
          strStartsWith "rediss://h" "rediss://" || strContains "rediss://h" "tls=true"⟩ :=
  (C9_startup "rediss://h" (by decide)).2.2

/-- Claim C10: the POST call path never mutates the registry — every
invocation, whatever its outcome, returns the registry it was given — while
the stream-open path (connect succeeding) adds exactly the new binding and
the onClose teardown removes exactly the binding of the closed session. -/
theorem C10_registry_frame (sid? : Option String) (msg : String) (reg : Registry)
    (store : Store) (beh : StoreBehavior) :
    (POST sid? msg reg store beh).registry = reg
    ∧ (∀ (reg2 : Registry) (store2 : Store) (t : Transport) (sf df : Bool),
        (streamOpen reg2 store2 t sf false df).registry = regInsert reg2 t.sessionId t)
    ∧ (∀ (id : String) (reg3 : Registry) (store3 : Store) (df : Bool),
        (onClose id reg3 store3 df).registry = regRemove reg3 id) :=
  ⟨POST_registry_eq sid? msg reg store beh, fun _ _ _ _ _ => rfl, fun _ _ _ _ => rfl⟩

end Mcp
